import Mathlib

/-!
Shallow embedding of the pyDeauther repository: the attack orchestrator
(src/pyDeauther.py), the subprocess manager (src/lib/command_runner.py) and
the HUD stream aggregator (src/lib/hud_stream.py), together with theorems
checking the natural-language specification against this embedding.
-/

namespace PyDeauther

/-- Row of the `networks` relation (SQLite schema in lib/wifi_importer.py:
`bssid TEXT PRIMARY KEY, ssid TEXT, channel INTEGER`).  The importer stores
`channel` through `to_int_or_none`, i.e. as an integer or NULL, hence
`Option Int` here. -/
structure Network where
  ssid : String
  bssid : String
  channel : Option Int
  deriving Repr, DecidableEq

/-- Row of the `clients` relation (`client_bssid TEXT PRIMARY KEY,
`associated_network TEXT NULL`). -/
structure Client where
  client_bssid : String
  associated_network : Option String
  deriving Repr, DecidableEq

/-- Projection of a `networks` row as fetched by the selection query in
`attackNetworkByIndex`; the `WHERE CAST(channel AS INTEGER) > 0` clause
guarantees the channel is non-NULL, so it appears here as a plain `Int`. -/
structure NetworkRow where
  ssid : String
  bssid : String
  channel : Int
  deriving Repr, DecidableEq

/-- Rows satisfying the WHERE clause of the selection query in
`attackNetworkByIndex`: `CAST(channel AS INTEGER) > 0` and, when a whitelist
is configured, `bssid NOT IN (...)`.  `filterMap` both filters and projects
the guaranteed-present channel value. -/
def eligibleRows (nets : List Network) (wl : List String) : List NetworkRow :=
  nets.filterMap fun nw =>
    nw.channel.bind fun c =>
      if 0 < c ∧ nw.bssid ∉ wl then some ⟨nw.ssid, nw.bssid, c⟩ else none

/-- The order realising `ORDER BY CAST(channel AS INTEGER), bssid`:
non-decreasing `(channel, bssid)` lexicographic order.  SQLite BINARY
collation compares the UTF-8 bytes of `bssid`; on the ASCII MAC strings
produced by the importer this coincides with the character-list order used
here. -/
def RowLeP (a b : NetworkRow) : Prop :=
  a.channel < b.channel ∨
    (a.channel = b.channel ∧ a.bssid.data ≤ b.bssid.data)

instance : DecidableRel RowLeP := fun a b =>
  inferInstanceAs (Decidable (a.channel < b.channel ∨
    (a.channel = b.channel ∧ a.bssid.data ≤ b.bssid.data)))

theorem rowLeP_trans (a b c : NetworkRow) :
    RowLeP a b → RowLeP b c → RowLeP a c := by
  rintro (hab | ⟨hab, hab2⟩) (hbc | ⟨hbc, hbc2⟩)
  · exact Or.inl (hab.trans hbc)
  · exact Or.inl (hbc ▸ hab)
  · exact Or.inl (hab ▸ hbc)
  · exact Or.inr ⟨hab.trans hbc, hab2.trans hbc2⟩

theorem rowLeP_total (a b : NetworkRow) : RowLeP a b ∨ RowLeP b a := by
  rcases lt_trichotomy a.channel b.channel with h | h | h
  · exact Or.inl (Or.inl h)
  · rcases le_total a.bssid.data b.bssid.data with h2 | h2
    · exact Or.inl (Or.inr ⟨h, h2⟩)
    · exact Or.inr (Or.inr ⟨h.symm, h2⟩)
  · exact Or.inr (Or.inl h)

instance : IsTrans NetworkRow RowLeP := ⟨rowLeP_trans⟩

instance : IsTotal NetworkRow RowLeP := ⟨rowLeP_total⟩

/-- Result sequence of the ordered selection query: the eligible rows sorted
by `(channel, bssid)`. -/
def visitOrder (nets : List Network) (wl : List String) : List NetworkRow :=
  (eligibleRows nets wl).insertionSort RowLeP

/-- The selection query of `attackNetworkByIndex`:
`SELECT ssid, bssid, channel FROM networks WHERE ... ORDER BY ...
LIMIT 1 OFFSET currentNet`. -/
def selectNetwork (nets : List Network) (wl : List String) (offset : Nat) :
    Option NetworkRow :=
  (visitOrder nets wl).get? offset

/-- The client query of `attackClientByIndex`:
`SELECT client_bssid, associated_network FROM clients
WHERE associated_network = ? LIMIT 1 OFFSET ?`.  The query has no ORDER BY;
rows arrive in table (insertion) order, modelled by the list order. -/
def selectClient (cls : List Client) (bssid : String) (offset : Nat) :
    Option Client :=
  (cls.filter fun c => decide (c.associated_network = some bssid)).get? offset

/-- Any row returned by the selection query is one of the eligible rows. -/
theorem selectNetwork_mem_eligible {nets : List Network} {wl : List String}
    {i : Nat} {r : NetworkRow} (h : selectNetwork nets wl i = some r) :
    r ∈ eligibleRows nets wl := by
  have hmem : r ∈ visitOrder nets wl := by
    rw [selectNetwork] at h
    rcases List.get?_eq_some.mp h with ⟨hlt, hget⟩
    exact hget ▸ List.get_mem _ _ _
  exact (List.perm_insertionSort RowLeP (eligibleRows nets wl)).mem_iff.mp hmem

/-- Eligible rows are exactly the non-whitelisted networks with a positive
channel. -/
theorem mem_eligibleRows_iff {nets : List Network} {wl : List String}
    {r : NetworkRow} :
    r ∈ eligibleRows nets wl ↔
      ∃ nw ∈ nets, nw.ssid = r.ssid ∧ nw.bssid = r.bssid ∧
        nw.channel = some r.channel ∧ 0 < r.channel ∧ r.bssid ∉ wl := by
  constructor
  · intro h
    rcases List.mem_filterMap.mp h with ⟨nw, hnw, hf⟩
    rcases Option.bind_eq_some.mp hf with ⟨c, hc, hif⟩
    by_cases hcond : 0 < c ∧ nw.bssid ∉ wl
    · rw [if_pos hcond] at hif
      cases hif
      exact ⟨nw, hnw, rfl, rfl, hc, hcond.1, hcond.2⟩
    · rw [if_neg hcond] at hif
      exact absurd hif (by simp)
  · rintro ⟨nw, hnw, hssid, hbssid, hc, hpos, hwl⟩
    refine List.mem_filterMap.mpr ⟨nw, hnw, ?_⟩
    rw [hc, Option.some_bind, if_pos ⟨hpos, hbssid ▸ hwl⟩, hssid, hbssid]

/-- Wifi card mode as tracked by the global `wifiState` string
("Managed" / "Monitor"). -/
inductive WifiMode where
  | Managed
  | Monitor
  deriving Repr, DecidableEq

/-- Configuration values read through `getDBconfig()`.  In the source they
are strings converted with `int(...)` at use sites (`max_attack_loop`,
`deauth_count`); the embedding keeps the converted numbers. -/
structure Config where
  maxAttackLoop : Nat
  deauthCount : Int
  deriving Repr, DecidableEq

/-- External commands issued through `mgr.run(...)`, plus the
`scannerProc.kill()` call of the `stop_attack` handler.  The embedding
abstracts each built command string to its kind and the substituted data. -/
inductive Action where
  | setModeCmd (target : WifiMode)
  | scanCmd
  | setChannelCmd (channel : Int)
  | deauthBroadcastCmd (bssid : String) (channel : Int) (killCount : Int)
  | deauthClientCmd (bssid : String) (clientMac : String) (killCount : Int)
  | killScannerCmd
  deriving Repr, DecidableEq

/-- The module-level mutable globals of pyDeauther.py, plus the external
result store (`networks` / `clients` relations) and the whitelist the
selection queries read. -/
structure State where
  currentNet : Nat
  currentClient : Nat
  attackLoop : Nat
  maxAttackLoop : Nat
  lastChannel : Int
  allow_attack : Bool
  wifiState : WifiMode
  scannerProc : Bool
  db : List Network
  clients : List Client
  whitelist : List String
  cfg : Config
  deriving Repr, DecidableEq

/-- Hard kill timeout of the broadcast deauthentication command
(`attackNetworkByIndex`): `kill_count = int(deauth_count);
if (kill_count < 3): kill_count=3`. -/
def killCountBroadcast (d : Int) : Int :=
  if d < 3 then 3 else d

/-- Hard kill timeout of the targeted client deauthentication command
(`attackClientByIndex`): `kill_count = int(deauth_count);
if (kill_count < 5): kill_count=5`. -/
def killCountClient (d : Int) : Int :=
  if d < 5 then 5 else d

/-- Python equality between the integer `channel` fetched from the INTEGER
column and the string literal `"-1"` (the `if (channel=="-1")` guard in
`attackNetworkByIndex`).  In Python `int == str` is always `False`, so this
is the constant `false` for every argument pair. -/
def pyIntEqStr (c : Int) (s : String) : Bool :=
  false

/-- `scanForNetworks()`: deletes the old CSV, builds the scan command and
starts it, storing the handle in the global `scannerProc`.  (The local
assignment `scannerState=True` shadows the module global and is dropped.) -/
def scanForNetworks (s : State) : State × List Action :=
  ({ s with scannerProc := true }, [Action.scanCmd])

/-- `setChannel(channel, wifiCard)`: after the `allow_attack` guard it issues
the channel-set command and then immediately assigns
`lastChannel = channel` — at issue time, not on command completion. -/
def setChannel (channel : Int) (s : State) : State × List Action :=
  if s.allow_attack = false then (s, [])
  else ({ s with lastChannel := channel }, [Action.setChannelCmd channel])

/-- `setWifiMode(wifiCard, mode)`.  With `mode=None` and `wifiState` already
"Managed" the source calls `set_mode_finished()` with no arguments, which
raises `TypeError` (the function requires `pid, chunk`); that path is the
`Except.error` case.  Every other path issues one mode-set command and
records the new mode. -/
def setWifiMode (mode : Option WifiMode) (s : State) :
    Except Unit (State × List Action) :=
  if s.allow_attack = false then .ok (s, [])
  else
    match mode with
    | some m => .ok ({ s with wifiState := m }, [Action.setModeCmd m])
    | none =>
      if s.wifiState = .Monitor then
        .ok ({ s with wifiState := .Managed }, [Action.setModeCmd .Managed])
      else .error ()

/-- `set_mode_finished(pid, chunk)`: abort when cancelled or when the card is
(being put) in Managed mode, otherwise start the scan. -/
def set_mode_finished (s : State) : State × List Action :=
  if s.allow_attack = false ∨ s.wifiState = .Managed then (s, [])
  else scanForNetworks s

/-- Tail of the row-found path of `attackNetworkByIndex` (source lines
334-355): skip the channel-set when the row's channel equals `lastChannel`
and go straight to the broadcast attack, otherwise issue the channel-set
command (whose completion callback re-enters `attackNetworkByIndex`). -/
def attackTail (s : State) (row : NetworkRow) : State × List Action :=
  if s.lastChannel ≠ row.channel then setChannel row.channel s
  else
    (s, [Action.deauthBroadcastCmd row.bssid row.channel
          (killCountBroadcast s.cfg.deauthCount)])

/-- Entry mutations of `attackNetworkByIndex()` (source lines 285-287):
`currentClient=0` and `maxAttackLoop = int(cfg["max_attack_loop"])`. -/
def prepState (s : State) : State :=
  { s with currentClient := 0, maxAttackLoop := s.cfg.maxAttackLoop }

/-- `attackNetworkByIndex()`.  Faithful translation of source lines 281-355,
including the dead `channel=="-1"` skip branch: its guard `pyIntEqStr` is
constantly false (int/str comparison), and in the source the branch lacks a
`return`, so after the recursive call it would fall through into the
channel-set logic of the current row — the embedding keeps that fallthrough.
Recursion (list exhaustion, skip branch) is metered by `fuel`; `none` means
the fuel ran out. -/
def attackNetworkByIndex : Nat → State → Option (State × List Action)
  | 0, _ => none
  | fuel + 1, s =>
    let s1 := prepState s
    match selectNetwork s1.db s1.whitelist s1.currentNet with
    | none =>
      let s2 := { s1 with currentNet := 0 }
      if s2.maxAttackLoop ≤ s2.attackLoop then
        some (scanForNetworks { s2 with attackLoop := 1 })
      else
        attackNetworkByIndex fuel { s2 with attackLoop := s2.attackLoop + 1 }
    | some row =>
      if pyIntEqStr row.channel "-1" then
        match attackNetworkByIndex fuel { s1 with currentNet := s1.currentNet + 1 } with
        | none => none
        | some (s2, acts) =>
          let (s3, acts2) := attackTail s2 row
          some (s3, acts ++ acts2)
      else some (attackTail s1 row)

/-- `attackClientByIndex(bssid, channel)`: fetch the next associated client;
when none is left advance `currentNet` and fall back to network selection,
otherwise advance `currentClient` and issue the targeted deauthentication
command. -/
def attackClientByIndex (bssid : String) (channel : Int) (fuel : Nat)
    (s : State) : Option (State × List Action) :=
  match selectClient s.clients bssid s.currentClient with
  | none => attackNetworkByIndex fuel { s with currentNet := s.currentNet + 1 }
  | some cl =>
    some ({ s with currentClient := s.currentClient + 1 },
      [Action.deauthClientCmd bssid cl.client_bssid
        (killCountClient s.cfg.deauthCount)])

/-- `set_channel_finished(pid, chunk)`. -/
def set_channel_finished (fuel : Nat) (s : State) :
    Option (State × List Action) :=
  if s.allow_attack = false then some (s, [])
  else attackNetworkByIndex fuel s

/-- `attack_finished(pid, chunk, bssid, channel)`. -/
def attack_finished (bssid : String) (channel : Int) (fuel : Nat) (s : State) :
    Option (State × List Action) :=
  if s.allow_attack = false then some (s, [])
  else attackClientByIndex bssid channel fuel s

/-- `client_attack_finished(pid, chunk, bssid, channel)`. -/
def client_attack_finished (bssid : String) (channel : Int) (fuel : Nat)
    (s : State) : Option (State × List Action) :=
  if s.allow_attack = false then some (s, [])
  else attackClientByIndex bssid channel fuel s

/-- `attackWifis()`: the assignment `currentNet=0` in its body has no
`global currentNet` declaration, so it only creates a local variable — the
module-level `currentNet` is NOT reset here.  The embedding reflects that:
the state passes through unchanged into `attackNetworkByIndex`. -/
def attackWifis (fuel : Nat) (s : State) : Option (State × List Action) :=
  attackNetworkByIndex fuel s

/-- `scan_finished(pid, chunk)`: after the `allow_attack` guard, `readWifis()`
clears both relations and imports the freshly parsed scan results (modelled
as the event payload), then `attackWifis()` runs. -/
def scan_finished (nets : List Network) (cls : List Client) (fuel : Nat)
    (s : State) : Option (State × List Action) :=
  if s.allow_attack = false then some (s, [])
  else attackWifis fuel { s with db := nets, clients := cls }

/-- Events driving the orchestrator: the two relevant frontend commands and
the completion callbacks of previously issued commands.  `scanFinished`
carries the parse result of the new CSV (external input). -/
inductive Ev where
  | cmdScan
  | cmdStopAttack
  | modeFinished
  | channelFinished
  | attackFinished (bssid : String) (channel : Int)
  | clientAttackFinished (bssid : String) (channel : Int)
  | scanFinished (nets : List Network) (cls : List Client)
  deriving Repr, DecidableEq

/-- Step outcome errors: the `TypeError` raised by
`set_mode_finished()` called without arguments, or fuel exhaustion of the
embedding. -/
inductive StepErr where
  | typeError
  | outOfFuel
  deriving Repr, DecidableEq

/-- Lift a fuelled handler result. -/
def ofFuel : Option (State × List Action) → Except StepErr (State × List Action)
  | none => .error .outOfFuel
  | some r => .ok r

/-- One dispatch of the orchestrator on an event, returning the successor
state and the list of commands issued while handling it.
`cmdScan` is the `scan` branch of `on_command` (set `allow_attack=True`,
switch to Monitor); `cmdStopAttack` is the `stop_attack` branch: it first
calls `setWifiMode(wifiCard, None)` (which may raise), only then sets
`allow_attack=False` and kills `scannerProc` if one was ever started. -/
def step (fuel : Nat) (s : State) : Ev → Except StepErr (State × List Action)
  | .cmdScan =>
    match setWifiMode (some .Monitor) { s with allow_attack := true } with
    | .ok r => .ok r
    | .error _ => .error .typeError
  | .cmdStopAttack =>
    match setWifiMode none s with
    | .error _ => .error .typeError
    | .ok (s1, acts) =>
      let s2 := { s1 with allow_attack := false }
      if s2.scannerProc then .ok (s2, acts ++ [Action.killScannerCmd])
      else .ok (s2, acts)
  | .modeFinished => .ok (set_mode_finished s)
  | .channelFinished => ofFuel (set_channel_finished fuel s)
  | .attackFinished b c => ofFuel (attack_finished b c fuel s)
  | .clientAttackFinished b c => ofFuel (client_attack_finished b c fuel s)
  | .scanFinished nets cls => ofFuel (scan_finished nets cls fuel s)

/-- Run a list of events in sequence, accumulating the issued commands. -/
def runEvents (fuel : Nat) (s : State) : List Ev → Except StepErr (State × List Action)
  | [] => .ok (s, [])
  | e :: rest =>
    match step fuel s e with
    | .error err => .error err
    | .ok (s1, acts) =>
      match runEvents fuel s1 rest with
      | .error err => .error err
      | .ok (s2, acts2) => .ok (s2, acts ++ acts2)

/-- Initial values of the module-level globals (`currentNet=0`,
`currentClient=0`, `attackLoop=1`, `maxAttackLoop=2`, `lastChannel=0`,
`allow_attack=True`, `wifiState="Managed"`, `scannerProc=None`), over a
given store, whitelist and configuration. -/
def initState (db : List Network) (cls : List Client) (wl : List String)
    (cfg : Config) : State :=
  { currentNet := 0, currentClient := 0, attackLoop := 1, maxAttackLoop := 2,
    lastChannel := 0, allow_attack := true, wifiState := .Managed,
    scannerProc := false, db := db, clients := cls, whitelist := wl,
    cfg := cfg }

/-- Unfolding of `attackNetworkByIndex` when the selection query finds no
row (source lines 312-322). -/
theorem attackNetworkByIndex_none {fuel : Nat} {s : State}
    (h : selectNetwork s.db s.whitelist s.currentNet = none) :
    attackNetworkByIndex (fuel + 1) s =
      (if s.cfg.maxAttackLoop ≤ s.attackLoop then
        some (scanForNetworks
          { prepState s with currentNet := 0, attackLoop := 1 })
      else
        attackNetworkByIndex fuel
          { prepState s with
              currentNet := 0, attackLoop := s.attackLoop + 1 }) := by
  simp only [attackNetworkByIndex, prepState, h]

/-- Unfolding of `attackNetworkByIndex` when the selection query returns a
row (source lines 324-355); the dead sentinel branch does not fire because
its Python guard compares an int with a string. -/
theorem attackNetworkByIndex_row {fuel : Nat} {s : State} {row : NetworkRow}
    (h : selectNetwork s.db s.whitelist s.currentNet = some row) :
    attackNetworkByIndex (fuel + 1) s =
      some (attackTail (prepState s) row) := by
  simp only [attackNetworkByIndex, prepState, h, pyIntEqStr,
    Bool.false_eq_true, if_false]

/-- Actions that do not touch the channel, or that carry a positive
channel; a network whose channel is the sentinel `-1` is the target of no
such action. -/
def sentinelFreeAction : Action → Prop
  | .setChannelCmd c => 0 < c
  | .deauthBroadcastCmd _ c _ => 0 < c
  | _ => True

theorem selectNetwork_pos_channel {nets : List Network} {wl : List String}
    {i : Nat} {r : NetworkRow} (h : selectNetwork nets wl i = some r) :
    0 < r.channel := by
  rcases mem_eligibleRows_iff.mp (selectNetwork_mem_eligible h) with
    ⟨nw, _, _, _, _, hpos, _⟩
  exact hpos

theorem attackTail_sentinelFree {s : State} {row : NetworkRow}
    (hpos : 0 < row.channel) :
    ∀ a ∈ (attackTail s row).2, sentinelFreeAction a := by
  intro a ha
  rw [attackTail] at ha
  split at ha
  · rw [setChannel] at ha
    split at ha
    · simp at ha
    · simp at ha
      subst ha
      exact hpos
  · simp at ha
    subst ha
    exact hpos

/-- C1.  A network whose channel is the sentinel `-1` is never attacked: the
selection query only ever returns rows with a strictly positive channel
(so the sentinel row is skipped by the `WHERE CAST(channel AS INTEGER) > 0`
filter and the index offset simply moves past it in the eligible list), and
consequently every channel-set or deauthentication command issued anywhere
in an `attackNetworkByIndex` cascade carries a strictly positive channel —
none is ever issued for a sentinel-channel network. -/
theorem sentinel_network_never_attacked :
    (∀ (nets : List Network) (wl : List String) (i : Nat) (r : NetworkRow),
      selectNetwork nets wl i = some r → 0 < r.channel ∧ r.channel ≠ -1) ∧
    (∀ (fuel : Nat) (s : State) (res : State × List Action),
      attackNetworkByIndex fuel s = some res →
        ∀ a ∈ res.2, sentinelFreeAction a) := by
  constructor
  · intro nets wl i r h
    have hpos := selectNetwork_pos_channel h
    exact ⟨hpos, by omega⟩
  · intro fuel
    induction fuel with
    | zero =>
      intro s res h
      exact absurd h (by simp [attackNetworkByIndex])
    | succ n ih =>
      intro s res h
      rcases hrow : selectNetwork s.db s.whitelist s.currentNet with _ | row
      · rw [attackNetworkByIndex_none hrow] at h
        split at h
        · cases h
          intro a ha
          rw [scanForNetworks] at ha
          simp at ha
          subst ha
          trivial
        · exact ih _ _ h
      · rw [attackNetworkByIndex_row hrow] at h
        cases h
        exact attackTail_sentinelFree (selectNetwork_pos_channel hrow)

/-- Concrete network with the sentinel channel `-1` in the store. -/
def exSentinel : Network := Network.mk "sentinel" "AA:AA:AA:AA:AA:01" (some (-1))

/-- Concrete network on channel 6. -/
def exNetB : Network := Network.mk "netB" "BB:BB:BB:BB:BB:02" (some 6)

/-- Concrete configuration: `max_attack_loop=2`, `deauth_count=3`. -/
def exCfg : Config := Config.mk 2 3

/-- Selection row of `exNetB`. -/
def exRowB : NetworkRow := NetworkRow.mk "netB" "BB:BB:BB:BB:BB:02" 6

/-- Initial state over a store holding the sentinel network and `exNetB`. -/
def exInitSB : State := initState [exSentinel, exNetB] [] [] exCfg

/-- Witness for C1 at a concrete input: a store holding a sentinel network
and a normal one; the selection at offset 0 returns the normal network (the
sentinel one is filtered out), its channel is positive and differs from
`-1`, and a concrete `attackNetworkByIndex` run issues only sentinel-free
actions. -/
theorem sentinel_network_never_attacked_witness :
    (0 : Int) < exRowB.channel ∧ exRowB.channel ≠ -1 ∧
      ∀ a ∈ [Action.setChannelCmd 6], sentinelFreeAction a := by
  have hsel : selectNetwork [exSentinel, exNetB] [] 0 = some exRowB := by
    decide
  have h1 := sentinel_network_never_attacked.1 _ _ _ _ hsel
  have hrun : attackNetworkByIndex 2 exInitSB =
      some ({ exInitSB with lastChannel := 6 }, [Action.setChannelCmd 6]) := by
    decide
  exact ⟨h1.1, h1.2, sentinel_network_never_attacked.2 _ _ _ hrun⟩

/-- C3.  Network selection is exactly the offset-indexed walk of the
eligible rows (positive channel, bssid not whitelisted) sorted by
`(channel asc, bssid asc)`: the visited sequence is a permutation of the
eligible rows, it is pairwise non-decreasing in `(channel, bssid)`, and its
members are exactly the projections of non-whitelisted positive-channel
networks of the store. -/
theorem selection_visits_sorted_eligible (nets : List Network)
    (wl : List String) (i : Nat) :
    selectNetwork nets wl i = (visitOrder nets wl).get? i ∧
    (visitOrder nets wl).Perm (eligibleRows nets wl) ∧
    List.Sorted RowLeP (visitOrder nets wl) ∧
    (∀ r : NetworkRow, r ∈ visitOrder nets wl ↔
      ∃ nw ∈ nets, nw.ssid = r.ssid ∧ nw.bssid = r.bssid ∧
        nw.channel = some r.channel ∧ 0 < r.channel ∧ r.bssid ∉ wl) := by
  refine ⟨rfl, List.perm_insertionSort _ _, ?_, ?_⟩
  · exact List.sorted_insertionSort RowLeP (eligibleRows nets wl)
  · intro r
    rw [show visitOrder nets wl = (eligibleRows nets wl).insertionSort RowLeP
      from rfl, (List.perm_insertionSort _ _).mem_iff]
    exact mem_eligibleRows_iff

/-- Completion-callback events (as opposed to frontend commands). -/
def isCallbackEv : Ev → Bool
  | .modeFinished => true
  | .channelFinished => true
  | .attackFinished _ _ => true
  | .clientAttackFinished _ _ => true
  | .scanFinished _ _ => true
  | .cmdScan => false
  | .cmdStopAttack => false

/-- Scan, channel-set and deauthentication commands — the commands that must
not be issued any more once `stop_attack` has set `allow_attack=False`. -/
def isAttackCmd : Action → Bool
  | .scanCmd => true
  | .setChannelCmd _ => true
  | .deauthBroadcastCmd _ _ _ => true
  | .deauthClientCmd _ _ _ => true
  | .setModeCmd _ => false
  | .killScannerCmd => false

/-- Concrete state over a store holding only `exNetB`. -/
def exInitB : State := initState [exNetB] [] [] exCfg

/-- Concrete cancelled state (`allow_attack=False`). -/
def exStopped : State := { exInitB with allow_attack := false }

/-- Concrete state of an active scan: Monitor mode, scanner process
started. -/
def exScanning : State :=
  { exInitB with wifiState := WifiMode.Monitor, scannerProc := true }

/-- Shape of the `stop_attack` handler when the card is in Monitor mode (the
state of every running scan/attack cycle): one Managed-mode command when the
cancel flag was not yet set, plus the `scannerProc.kill()` when a scanner
process exists. -/
theorem step_stopAttack (fuel : Nat) (s : State)
    (hmode : s.wifiState = .Monitor) :
    step fuel s .cmdStopAttack =
      .ok ({ s with
              wifiState := if s.allow_attack then .Managed else .Monitor,
              allow_attack := false },
        (if s.allow_attack then [Action.setModeCmd .Managed] else []) ++
          (if s.scannerProc then [Action.killScannerCmd] else [])) := by
  by_cases hallow : s.allow_attack = true
  · by_cases hsc : s.scannerProc = true <;>
      simp [step, setWifiMode, hmode, hallow, hsc]
  · rw [Bool.not_eq_true] at hallow
    by_cases hsc : s.scannerProc = true <;>
      simp [step, setWifiMode, hmode, hallow, hsc]

/-- C2.  Cooperative cancellation: (1) once `allow_attack=False` every
completion callback is a no-op — the state is unchanged and no command of
any kind is issued; (2) handling `stop_attack` while the card is in Monitor
mode (the state of every running cycle) always succeeds, leaves
`allow_attack=False`, kills the scanner process whenever one was started,
and itself issues no scan/channel-set/deauthentication command (only the
Managed-mode switch and the kill). -/
theorem stop_attack_cancels :
    (∀ (fuel : Nat) (s : State) (e : Ev), s.allow_attack = false →
      isCallbackEv e = true → step fuel s e = .ok (s, [])) ∧
    (∀ (fuel : Nat) (s : State), s.wifiState = .Monitor →
      ∃ s2 acts, step fuel s .cmdStopAttack = .ok (s2, acts) ∧
        s2.allow_attack = false ∧
        (s.scannerProc = true → Action.killScannerCmd ∈ acts) ∧
        ∀ a ∈ acts, isAttackCmd a = false) := by
  constructor
  · intro fuel s e hallow hcb
    cases e <;> simp_all [step, isCallbackEv, set_mode_finished,
      set_channel_finished, attack_finished, client_attack_finished,
      scan_finished, attackWifis, ofFuel]
  · intro fuel s hmode
    refine ⟨_, _, step_stopAttack fuel s hmode, rfl, ?_, ?_⟩
    · intro hsc
      rw [hsc]
      simp
    · intro a ha
      rcases List.mem_append.mp ha with h | h <;> split at h <;>
        simp_all [isAttackCmd]

/-- Witness for C2: a concrete cancelled state absorbs an in-flight
broadcast-completion callback without issuing anything, and a concrete
stop of an active scan kills the scanner. -/
theorem stop_attack_cancels_witness :
    step 3 exStopped (Ev.attackFinished "BB:BB:BB:BB:BB:02" 6) =
      .ok (exStopped, []) ∧
    ∃ s2 acts, step 3 exScanning .cmdStopAttack = .ok (s2, acts) ∧
      s2.allow_attack = false ∧
      (exScanning.scannerProc = true → Action.killScannerCmd ∈ acts) ∧
      ∀ a ∈ acts, isAttackCmd a = false :=
  ⟨stop_attack_cancels.1 3 exStopped _ (by decide) (by decide),
    stop_attack_cancels.2 3 exScanning (by decide)⟩

/-- C4 (amended).  Exhaustion dynamics of the selection loop, as the code
implements them: when the selection query returns no row,
`currentNetworkIndex` is reset to 0 and either (a) `attackLoopCount` has
reached `maxAttackLoop`, in which case it is reset to 1 and a new scan is
started instead of another selection pass, or (b) it is incremented by
exactly 1 and selection re-runs immediately with no command issued.  (The
code resets the counter at the moment the rescan is triggered; nothing
resets it when a scan *completes*, so a scan requested from the frontend
after a cancelled cycle starts with the leftover counter — see the
counterexample.) -/
theorem attackLoop_increment_and_rescan (fuel : Nat) (s : State)
    (h : selectNetwork s.db s.whitelist s.currentNet = none) :
    (s.cfg.maxAttackLoop ≤ s.attackLoop →
      attackNetworkByIndex (fuel + 1) s =
        some ({ prepState s with
                  currentNet := 0, attackLoop := 1, scannerProc := true },
          [Action.scanCmd])) ∧
    (s.attackLoop < s.cfg.maxAttackLoop →
      attackNetworkByIndex (fuel + 1) s =
        attackNetworkByIndex fuel
          { prepState s with
              currentNet := 0, attackLoop := s.attackLoop + 1 }) := by
  constructor
  · intro hle
    rw [attackNetworkByIndex_none h, if_pos hle]
    rfl
  · intro hlt
    rw [attackNetworkByIndex_none h, if_neg (by omega)]

/-- Concrete state over an empty result store. -/
def exInitEmpty : State := initState [] [] [] exCfg

/-- Witness for C4 at a concrete input: with an empty store and
`attackLoopCount = 1 < maxAttackLoop = 2`, exhaustion re-enters selection
with the counter incremented to 2 and the index reset to 0. -/
theorem attackLoop_increment_and_rescan_witness :
    attackNetworkByIndex 2 exInitEmpty =
      attackNetworkByIndex 1
        { prepState exInitEmpty with currentNet := 0, attackLoop := 2 } :=
  (attackLoop_increment_and_rescan 1 exInitEmpty (by decide)).2 (by decide)

/-- Event trace refuting "attackLoopCount starts at 1 after every scan": a
frontend scan over the single network `exNetB` (no clients); exhausting the
list once raises the counter to 2; `stop_attack` cancels mid-cycle (the
late broadcast callback is absorbed); a second frontend scan then runs and
completes — with the leftover counter still at 2. -/
def evsLoopLeftover : List Ev :=
  [Ev.cmdScan, Ev.modeFinished, Ev.scanFinished [exNetB] [],
    Ev.channelFinished, Ev.attackFinished "BB:BB:BB:BB:BB:02" 6,
    Ev.cmdStopAttack, Ev.attackFinished "BB:BB:BB:BB:BB:02" 6,
    Ev.cmdScan, Ev.modeFinished, Ev.scanFinished [exNetB] []]

/-- Final `attackLoop` value of a run. -/
def finalAttackLoop : Except StepErr (State × List Action) → Option Nat
  | .ok (s, _) => some s.attackLoop
  | .error _ => none

/-- Counterexample to C4 as stated: after the last `scanFinished` of
`evsLoopLeftover` has been processed, `attackLoopCount` is 2, not 1 — the
selection pass of the new cycle ran with the stale counter. -/
theorem attackLoop_not_one_after_scan :
    finalAttackLoop (runEvents 10 exInitB evsLoopLeftover) = some 2 := by
  decide

/-- Concrete network on channel 1, first in `(channel, bssid)` order. -/
def exNetA : Network := Network.mk "netA" "AA:AA:AA:AA:AA:01" (some 1)

/-- State left over by a cancelled cycle: `currentNet = 1`. -/
def exLeftover : State := { initState [] [] [] exCfg with currentNet := 1 }

/-- State after `scan_finished` imported `[exNetA, exNetB]` over
`exLeftover`: the index is still 1 and the channel-set for network B was
issued. -/
def exAfterScanLeftover : State :=
  { exLeftover with db := [exNetA, exNetB], lastChannel := 6 }

/-- C5 evaluated at the failing input: `attackWifis()` assigns a *local*
`currentNet` (missing `global` declaration), so a scan completing while the
leftover global index is 1 starts the new cycle at offset 1: the offset-0
network `exNetA` is skipped, the channel-set command is issued for `exNetB`
(channel 6, not 1) and `currentNetworkIndex` remains 1 — the spec says the
index is reset to 0 before the first selection of the new cycle. -/
theorem scan_finished_does_not_reset_index :
    scan_finished [exNetA, exNetB] [] 3 exLeftover =
      some (exAfterScanLeftover, [Action.setChannelCmd 6]) ∧
    exAfterScanLeftover.currentNet = 1 ∧
    selectNetwork [exNetA, exNetB] [] 0 =
      some (NetworkRow.mk "netA" "AA:AA:AA:AA:AA:01" 1) := by
  decide

/-- Counterexample to C6 as stated: issuing the channel-set command already
updates `lastChannel` — in the state reached right after the issuing step
(no completion callback processed yet) `lastChannel` is 6, while it was 0
before. -/
theorem lastChannel_updated_at_issue_not_completion :
    attackNetworkByIndex 2 exInitB =
      some ({ exInitB with lastChannel := 6 }, [Action.setChannelCmd 6]) ∧
    exInitB.lastChannel = 0 ∧ (6 : Int) ≠ 0 := by
  decide

/-- C6 (amended).  `lastChannel` is assigned the new channel at the moment
`setChannel` issues the channel-set command (directly after `mgr.run`), not
when the command completes; the completion callback
`set_channel_finished` performs no `lastChannel` update of its own — it
only dispatches back into `attackNetworkByIndex`. -/
theorem setChannel_assigns_lastChannel_at_issue (s : State) (c : Int)
    (h : s.allow_attack = true) :
    setChannel c s = ({ s with lastChannel := c }, [Action.setChannelCmd c]) ∧
    ∀ fuel, set_channel_finished fuel s = attackNetworkByIndex fuel s := by
  constructor
  · simp [setChannel, h]
  · intro fuel
    simp [set_channel_finished, h]

/-- Witness for C6 (amended) at a concrete state. -/
theorem setChannel_assigns_lastChannel_at_issue_witness :
    setChannel 6 exInitB =
      ({ exInitB with lastChannel := 6 }, [Action.setChannelCmd 6]) ∧
    ∀ fuel, set_channel_finished fuel exInitB =
      attackNetworkByIndex fuel exInitB :=
  setChannel_assigns_lastChannel_at_issue exInitB 6 (by decide)

/-- Counterexample to C7 as stated: with `deauth_count = 3` the client
attack is time-boxed at 5 seconds but the broadcast attack at 3 — the two
floors differ. -/
theorem timeout_floor_differs :
    killCountClient 3 = 5 ∧ killCountBroadcast 3 = 3 ∧
      killCountClient 3 ≠ killCountBroadcast 3 := by
  decide

/-- C7 (amended).  The broadcast deauthentication command is time-boxed at
`max 3 deauth_count` seconds while the targeted client command uses
`max 5 deauth_count` — a floor of 3 versus a floor of 5; the two hard kill
timeouts agree exactly when the configured count is at least 5. -/
theorem timeout_floor_rules (d : Int) :
    killCountClient d = max 5 d ∧ killCountBroadcast d = max 3 d ∧
      (killCountClient d = killCountBroadcast d ↔ 5 ≤ d) := by
  unfold killCountClient killCountBroadcast
  refine ⟨?_, ?_, ?_⟩
  · rw [max_def]
    split <;> split <;> omega
  · rw [max_def]
    split <;> split <;> omega
  · constructor
    · intro h
      split at h <;> split at h <;> omega
    · intro h
      rw [if_neg (by omega), if_neg (by omega)]

end PyDeauther

namespace CommandRunner

/-- Characters `shlex.quote` leaves unquoted (`_find_unsafe` with
re.ASCII): ASCII alphanumerics, underscore, at-sign, percent, plus,
equals, colon, comma, dot, slash and hyphen. -/
def isSafeChar (c : Char) : Bool :=
  c.isAlphanum || c == '_' || c == '@' || c == '%' || c == '+' || c == '=' ||
    c == ':' || c == ',' || c == '.' || c == '/' || c == '-'

/-- Python `shlex.quote`: empty string becomes two single quotes, safe
strings pass through, anything else is wrapped in single quotes with each
embedded single quote replaced by the five-character sequence
quote, double-quote, quote, double-quote, quote. -/
def shlexQuote (s : String) : String :=
  if s = "" then "\x27\x27"
  else if s.data.all isSafeChar then s
  else
    "\x27" ++
      String.join (s.data.map fun c =>
        if c == '\x27' then "\x27\x22\x27\x22\x27" else String.singleton c) ++
      "\x27"

/-- Errors `shlex.split` can raise in posix mode: unbalanced quote or a
trailing escape character. -/
inductive SplitErr where
  | noClosingQuote
  | noEscapedChar
  deriving Repr, DecidableEq

/-- Lexer states of `shlex.read_token` (posix mode, whitespace_split):
whitespace, inside a word, inside single/double quotes, after an escape
character outside/inside double quotes. -/
inductive LexState where
  | ws
  | word
  | squote
  | dquote
  | escWord
  | escDquote
  deriving Repr, DecidableEq

/-- Whitespace characters of `shlex` (` \t\r\n`). -/
def isWsChar (c : Char) : Bool :=
  c == ' ' || c == '\t' || c == '\r' || c == '\n'

/-- Character-by-character model of `shlex.read_token` in posix mode with
`whitespace_split=True` (quotes `\x27` and `\x22`, escape `\x5c`,
escapedquotes `\x22`): a token is emitted at whitespace or end of input
when it is non-empty or was quoted; inside double quotes a backslash
escapes only the double quote and the backslash itself, otherwise it is
kept literally; end of input inside a quote or right after an escape
raises. -/
def shlexSplitAux : List Char → LexState → List Char → Bool → List String →
    Except SplitErr (List String)
  | [], st, tok, quoted, acc =>
    match st with
    | .ws => .ok acc
    | .word =>
      .ok (if tok.isEmpty && !quoted then acc else acc ++ [tok.asString])
    | .squote => .error .noClosingQuote
    | .dquote => .error .noClosingQuote
    | .escWord => .error .noEscapedChar
    | .escDquote => .error .noEscapedChar
  | c :: rest, st, tok, quoted, acc =>
    match st with
    | .ws =>
      if isWsChar c then shlexSplitAux rest .ws [] false acc
      else if c == '\x27' then shlexSplitAux rest .squote tok true acc
      else if c == '\x22' then shlexSplitAux rest .dquote tok true acc
      else if c == '\\' then shlexSplitAux rest .escWord tok quoted acc
      else shlexSplitAux rest .word (tok ++ [c]) quoted acc
    | .word =>
      if isWsChar c then
        shlexSplitAux rest .ws [] false
          (if tok.isEmpty && !quoted then acc else acc ++ [tok.asString])
      else if c == '\x27' then shlexSplitAux rest .squote tok true acc
      else if c == '\x22' then shlexSplitAux rest .dquote tok true acc
      else if c == '\\' then shlexSplitAux rest .escWord tok quoted acc
      else shlexSplitAux rest .word (tok ++ [c]) quoted acc
    | .squote =>
      if c == '\x27' then shlexSplitAux rest .word tok quoted acc
      else shlexSplitAux rest .squote (tok ++ [c]) quoted acc
    | .dquote =>
      if c == '\x22' then shlexSplitAux rest .word tok quoted acc
      else if c == '\\' then shlexSplitAux rest .escDquote tok quoted acc
      else shlexSplitAux rest .dquote (tok ++ [c]) quoted acc
    | .escWord => shlexSplitAux rest .word (tok ++ [c]) quoted acc
    | .escDquote =>
      if c == '\x22' || c == '\\' then
        shlexSplitAux rest .dquote (tok ++ [c]) quoted acc
      else shlexSplitAux rest .dquote (tok ++ ['\\', c]) quoted acc

/-- Python `shlex.split`. -/
def shlexSplit (s : String) : Except SplitErr (List String) :=
  shlexSplitAux s.data .ws [] false []

/-- Exceptions the synchronous part of `CommandManager.run` can raise:
`parts[0]` on an empty argument vector (IndexError) or a `shlex.split`
failure (ValueError). -/
inductive PrepErr where
  | indexError
  | valueError (e : SplitErr)
  deriving Repr, DecidableEq

/-- `CommandManager._prepare_invocation(cmd_str, elevate, method,
sudo_password, shell)`: returns the `(program, args)` pair handed to
`QProcess.start`. -/
def prepare_invocation (cmd_str : String) (elevate : Bool) (method : String)
    (sudo_password : Option String) (shell : Bool) :
    Except PrepErr (String × List String) :=
  if shell then
    if elevate then
      if method.toLower.startsWith "pkexec" then
        .ok ("pkexec", ["bash", "-lc", cmd_str])
      else
        match sudo_password with
        | some pw =>
          .ok ("bash", ["-lc",
            "echo " ++ shlexQuote pw ++ " | sudo -S bash -lc " ++
              shlexQuote cmd_str])
        | none => .ok ("bash", ["-lc", "sudo bash -lc " ++ shlexQuote cmd_str])
    else .ok ("bash", ["-lc", cmd_str])
  else
    match shlexSplit cmd_str with
    | .error e => .error (.valueError e)
    | .ok parts =>
      if elevate then
        if method.toLower.startsWith "pkexec" then .ok ("pkexec", parts)
        else
          match sudo_password with
          | some pw =>
            .ok ("bash", ["-lc",
              "echo " ++ shlexQuote pw ++ " | sudo -S " ++
                " ".intercalate (parts.map shlexQuote)])
          | none => .ok ("sudo", parts)
      else
        match parts with
        | [] => .error .indexError
        | p :: rest => .ok (p, rest)

/-- Request to `CommandManager.run`: the command (string or list of
strings), elevation flag and method, optional sudo password, shell-wrap
flag.  (`cwd`, `env` and the channel mode do not affect the properties
modelled here.) -/
structure ReqModel where
  command : Sum String (List String)
  elevate : Bool
  method : String
  sudo_password : Option String
  shell : Bool
  deriving Repr, DecidableEq

/-- Handle state tracked in `ProcHandle` / the manager dictionary.
`running` mirrors `process.state() != NotRunning`. -/
structure ProcModel where
  id : Nat
  command_str : String
  program : String
  args : List String
  running : Bool
  deriving Repr, DecidableEq

/-- Manager state: the `count(1)` id generator and the `_procs` dict
(insertion-ordered, as Python dicts are). -/
structure MgrState where
  nextId : Nat
  procs : List (Nat × ProcModel)
  deriving Repr, DecidableEq

/-- Fresh `CommandManager()`. -/
def initMgr : MgrState := { nextId := 1, procs := [] }

/-- `CommandManager.get(pid)`: dict lookup. -/
def getModel (m : MgrState) (pid : Nat) : Option ProcModel :=
  (m.procs.find? fun p => p.1 == pid).map (·.2)

/-- Normalisation of the `command` argument of `run` to a display string:
a list is joined with each element quoted, a string is stripped. -/
def normalizeCommand : Sum String (List String) → String
  | .inl s => s.trim
  | .inr xs => " ".intercalate (xs.map shlexQuote)

/-- Synchronous part of `CommandManager.run`: normalise the command to a
display string, build the invocation (which may raise), allocate the next
id, register the handle and return it.  The asynchronous QProcess
start/side effects are outside this model. -/
def runModel (m : MgrState) (req : ReqModel) :
    Except PrepErr (MgrState × ProcModel) :=
  let cmd_str := normalizeCommand req.command
  match prepare_invocation cmd_str req.elevate req.method req.sudo_password
      req.shell with
  | .error e => .error e
  | .ok (prog, args) =>
    let h : ProcModel :=
      { id := m.nextId, command_str := cmd_str, program := prog,
        args := args, running := true }
    .ok ({ nextId := m.nextId + 1, procs := m.procs ++ [(m.nextId, h)] }, h)

/-- `CommandManager.kill(pid)`: `h = self._procs.get(pid); if not h: return
False; h.kill(); return True`.  A `ProcHandle` dataclass is always truthy,
so the only `False` case is an unknown id; the second component is the list
of QProcess kill signals sent. -/
def killModel (m : MgrState) (pid : Nat) : Bool × List Nat :=
  match getModel m pid with
  | none => (false, [])
  | some _ => (true, [pid])

/-- `CommandManager.terminate(pid)`: same shape as `kill`. -/
def terminateModel (m : MgrState) (pid : Nat) : Bool × List Nat :=
  match getModel m pid with
  | none => (false, [])
  | some _ => (true, [pid])

/-- Counterexample to C8 as stated: `run` does raise for some requests —
with `shell=False` and an empty command (here the empty list form, whose
quoted join is the empty display string; the empty string form behaves the
same), `shlex.split` yields an empty vector and `parts[0]` raises
IndexError to the caller of `run`; no handle is returned. -/
theorem run_raises_on_empty_noshell_command :
    runModel initMgr
      { command := Sum.inr [], elevate := false, method := "pkexec",
        sudo_password := none, shell := false } =
      .error PrepErr.indexError :=
  rfl

theorem find?_append_fresh {pid : Nat} {h : ProcModel} :
    ∀ (procs : List (Nat × ProcModel)), (∀ p ∈ procs, p.1 ≠ pid) →
      (procs ++ [(pid, h)]).find? (fun p => p.1 == pid) = some (pid, h)
  | [], _ => by simp
  | q :: qs, hf => by
    have hq : (q.1 == pid) = false := by
      simpa using hf q (List.mem_cons_self q qs)
    simp only [List.cons_append, List.find?_cons, hq]
    exact find?_append_fresh qs fun p hp => hf p (List.mem_cons_of_mem q hp)

theorem prepare_invocation_shell_ok (cmd : String) (elevate : Bool)
    (method : String) (pw : Option String) :
    ∃ r, prepare_invocation cmd elevate method pw true = .ok r := by
  cases elevate <;> cases pw <;>
    by_cases hpk : method.toLower.startsWith "pkexec" <;>
      simp [prepare_invocation, hpk]

/-- C8 (amended).  For every request in shell mode (the default), the
synchronous part of `run` raises nothing and immediately returns a handle
carrying the freshly allocated id (the manager id counter advances by one
and `get` finds the registered handle).  With `shell=False`, a command
string parsing to an empty argument vector makes `run` raise to its caller
(see the counterexample). -/
theorem run_returns_handle_shell_mode (m : MgrState) (req : ReqModel)
    (hsh : req.shell = true)
    (hfresh : ∀ p ∈ m.procs, p.1 ≠ m.nextId) :
    ∃ m2 h, runModel m req = .ok (m2, h) ∧ h.id = m.nextId ∧
      m2.nextId = m.nextId + 1 ∧ getModel m2 m.nextId = some h := by
  rcases prepare_invocation_shell_ok (normalizeCommand req.command)
    req.elevate req.method req.sudo_password with ⟨⟨prog, args⟩, hpe⟩
  rw [← hsh] at hpe
  refine ⟨{ nextId := m.nextId + 1,
            procs := m.procs ++ [(m.nextId,
              { id := m.nextId, command_str := normalizeCommand req.command,
                program := prog, args := args, running := true })] },
    { id := m.nextId, command_str := normalizeCommand req.command,
      program := prog, args := args, running := true },
    ?_, rfl, rfl, ?_⟩
  · simp only [runModel]
    rw [hpe]
  · unfold getModel
    rw [find?_append_fresh m.procs hfresh]
    rfl

/-- Concrete shell-mode request (the `testCommand` example of
pyDeauther.py). -/
def exReqShell : ReqModel :=
  { command := Sum.inl "echo hello && echo world", elevate := false,
    method := "pkexec", sudo_password := none, shell := true }

/-- Witness for C8 (amended) on a fresh manager and a concrete request. -/
theorem run_returns_handle_shell_mode_witness :
    ∃ m2 h, runModel initMgr exReqShell = .ok (m2, h) ∧
      h.id = initMgr.nextId ∧ m2.nextId = initMgr.nextId + 1 ∧
      getModel m2 initMgr.nextId = some h :=
  run_returns_handle_shell_mode initMgr exReqShell (by decide) (by simp [initMgr])

/-- C9 (amended).  `kill(id)` and `terminate(id)` return the failure
indicator `False` exactly when the id is unknown (never submitted); for any
known id — even one whose process has already finished, since handles stay
registered after completion — they signal the process and return `True`. -/
theorem kill_terminate_fail_iff_unknown (m : MgrState) (pid : Nat) :
    ((killModel m pid).1 = false ↔ getModel m pid = none) ∧
    ((terminateModel m pid).1 = false ↔ getModel m pid = none) ∧
    (∀ h, getModel m pid = some h →
      killModel m pid = (true, [pid]) ∧
        terminateModel m pid = (true, [pid])) := by
  unfold killModel terminateModel
  rcases hg : getModel m pid with _ | h <;> simp [hg]

/-- A handle whose process has already finished. -/
def exProcDone : ProcModel :=
  { id := 1, command_str := "echo hi", program := "bash",
    args := ["-lc", "echo hi"], running := false }

/-- Manager holding only the finished handle (handles stay registered
after completion; see the comment at the end of `_on_finished`). -/
def exMgrDone : MgrState := { nextId := 2, procs := [(1, exProcDone)] }

/-- Counterexample to C9 as stated: for the known id 1, whose process has
already finished (`running = false`), `kill` and `terminate` still signal
the process and return the success indicator `True`, not a failure
indicator. -/
theorem kill_succeeds_on_finished_process :
    getModel exMgrDone 1 = some exProcDone ∧ exProcDone.running = false ∧
      killModel exMgrDone 1 = (true, [1]) ∧
      terminateModel exMgrDone 1 = (true, [1]) := by
  decide

/-- Witness for C9 (amended): instantiation at the finished-handle manager,
both for a known and for an unknown id. -/
theorem kill_terminate_fail_iff_unknown_witness :
    (killModel exMgrDone 1 = (true, [1]) ∧
      terminateModel exMgrDone 1 = (true, [1])) ∧
    ((killModel exMgrDone 7).1 = false ↔ getModel exMgrDone 7 = none) :=
  ⟨(kill_terminate_fail_iff_unknown exMgrDone 1).2.2 exProcDone (by decide),
    (kill_terminate_fail_iff_unknown exMgrDone 7).1⟩

end CommandRunner

namespace HudStream

/-- State of `HudStreamAggregator`: the bounded deque of finalised lines
(`maxlen = max_lines`), the in-progress line (`_current_line`, a char
list), and the dirty flag driving throttled emission. -/
structure HudState where
  lines : List String
  maxLines : Nat
  current : List Char
  dirty : Bool
  deriving Repr, DecidableEq

/-- `deque(maxlen=maxLines).append`: append, dropping the oldest entries
once the configured maximum is exceeded. -/
def boundedAppend (maxLines : Nat) (lines : List String) (line : String) :
    List String :=
  let l2 := lines ++ [line]
  if maxLines < l2.length then l2.drop (l2.length - maxLines) else l2

/-- `reset(initial_header=None)`: clear both buffers, optionally seed a
header line (stripped of trailing newlines), mark dirty. -/
def reset (st : HudState) (initialHeader : Option String) : HudState :=
  let st1 := { st with lines := [], current := [] }
  match initialHeader with
  | some hdr =>
    if hdr ≠ "" then
      { st1 with
          lines := boundedAppend st1.maxLines []
            (hdr.dropRightWhile (· == '\n')),
          dirty := true }
    else { st1 with dirty := true }
  | none => { st1 with dirty := true }

/-- Prefix test on character lists. -/
def isPrefixChars : List Char → List Char → Bool
  | [], _ => true
  | _ :: _, [] => false
  | a :: as, b :: bs => a == b && isPrefixChars as bs

/-- Substring containment on character lists. -/
def containsSeq (needle : List Char) : List Char → Bool
  | [] => isPrefixChars needle []
  | c :: rest => isPrefixChars needle (c :: rest) || containsSeq needle rest

/-- Leftmost match position of a substring (`str.find` returning an index
option rather than -1). -/
def findSub (needle : List Char) : List Char → Option Nat
  | [] => if isPrefixChars needle [] then some 0 else none
  | c :: rest =>
    if isPrefixChars needle (c :: rest) then some 0
    else (findSub needle rest).map (· + 1)

/-- Detection of `_RE_CSI_CLEAR` (`ESC [ 2J` or `ESC [ J`) or
`_RE_CSI_HOME` (`ESC [ H`) anywhere in the chunk, checked before ANSI
stripping. -/
def hasClearOrHome (s : List Char) : Bool :=
  containsSeq ['\x1b', '[', '2', 'J'] s || containsSeq ['\x1b', '[', 'J'] s ||
    containsSeq ['\x1b', '[', 'H'] s

/-- CSI parameter bytes `0x30-0x3F` of the generic stripper regex. -/
def isParamChar (c : Char) : Bool := '0' ≤ c && c ≤ '?'

/-- CSI intermediate bytes `0x20-0x2F`. -/
def isInterChar (c : Char) : Bool := ' ' ≤ c && c ≤ '/'

/-- CSI final bytes `0x40-0x7E`. -/
def isFinalChar (c : Char) : Bool := '@' ≤ c && c ≤ '~'

/-- Scanner state of the CSI stripper: plain text, after a bare `ESC`, or
inside `ESC [` in the parameter / intermediate phase (carrying the bytes
seen so far, which the regex puts back verbatim when the sequence never
completes with a final byte). -/
inductive StripState where
  | normal
  | sawEsc
  | csiParams (pending : List Char)
  | csiInters (pending : List Char)
  deriving Repr, DecidableEq

/-- `_RE_ANSI_ALL.sub(chars)` as a one-pass scanner: a complete
`ESC [ params* inters* final` sequence is removed; on a mismatch every
consumed character is kept (the pending bytes contain no `ESC`, so no
match can start inside them, making the single pass equivalent to the
regex substitution). -/
def stripAnsiAux : List Char → StripState → List Char
  | [], .normal => []
  | [], .sawEsc => ['\x1b']
  | [], .csiParams pend => '\x1b' :: '[' :: pend
  | [], .csiInters pend => '\x1b' :: '[' :: pend
  | c :: rest, .normal =>
    if c == '\x1b' then stripAnsiAux rest .sawEsc
    else c :: stripAnsiAux rest .normal
  | c :: rest, .sawEsc =>
    if c == '[' then stripAnsiAux rest (.csiParams [])
    else if c == '\x1b' then '\x1b' :: stripAnsiAux rest .sawEsc
    else '\x1b' :: c :: stripAnsiAux rest .normal
  | c :: rest, .csiParams pend =>
    if isParamChar c then stripAnsiAux rest (.csiParams (pend ++ [c]))
    else if isInterChar c then stripAnsiAux rest (.csiInters (pend ++ [c]))
    else if isFinalChar c then stripAnsiAux rest .normal
    else ('\x1b' :: '[' :: pend) ++
      (if c == '\x1b' then stripAnsiAux rest .sawEsc
       else c :: stripAnsiAux rest .normal)
  | c :: rest, .csiInters pend =>
    if isInterChar c then stripAnsiAux rest (.csiInters (pend ++ [c]))
    else if isFinalChar c then stripAnsiAux rest .normal
    else ('\x1b' :: '[' :: pend) ++
      (if c == '\x1b' then stripAnsiAux rest .sawEsc
       else c :: stripAnsiAux rest .normal)

/-- Strip all complete ANSI CSI sequences from a chunk. -/
def stripAnsi (l : List Char) : List Char :=
  stripAnsiAux l .normal

/-- `_finalize_line`: close the in-progress line; when the upper-cased line
contains the frame marker `CH ` anywhere, all previously finalised lines
are discarded and the kept line starts at the marker position; otherwise
the line is appended to the bounded buffer. -/
def finalizeLine (st : HudState) : HudState :=
  let raw := st.current
  match findSub ['C', 'H', ' '] (raw.map Char.toUpper) with
  | some i =>
    { st with
        lines := boundedAppend st.maxLines [] (raw.drop i).asString,
        current := [], dirty := true }
  | none =>
    { st with
        lines := boundedAppend st.maxLines st.lines raw.asString,
        current := [], dirty := true }

/-- `_ingest`: character loop — carriage return discards the in-progress
line (in-place overwrite), line feed finalises it, anything else is
appended; the dirty flag is set even without a newline. -/
def ingest (st : HudState) : List Char → HudState
  | [] => { st with dirty := true }
  | c :: rest =>
    if c == '\r' then ingest { st with current := [] } rest
    else if c == '\n' then ingest (finalizeLine st) rest
    else ingest { st with current := st.current ++ [c] } rest

/-- `_consume_str`: empty chunks are ignored; a clear/home control sequence
(checked before stripping) resets the buffers; the ANSI-stripped text is
then ingested. -/
def consumeStr (st : HudState) (text : String) : HudState :=
  if text = "" then st
  else
    let st1 := if hasClearOrHome text.data then reset st none else st
    ingest st1 (stripAnsi text.data)

/-- `_flush`: a no-op tick unless dirty; otherwise emit the finalised lines
plus the non-empty in-progress line joined with newlines, clearing the
dirty flag. -/
def flushEmit (st : HudState) : Option String × HudState :=
  if st.dirty = false then (none, st)
  else
    let parts := st.lines ++
      (if st.current.isEmpty then [] else [st.current.asString])
    (some (String.intercalate "\n" parts), { st with dirty := false })

/-- C10.  Feeding the single chunk `"CH 1 ...\nrow\rrow2\n"` to an
aggregator with an empty in-progress line (any previously finalised lines,
any dirty flag, the `max_lines=800` bound used by pyDeauther) yields
exactly the two-line buffer `["CH 1 ...", "row2"]`: the first finalised
line starts at the `CH ` marker (clearing all stale lines), and the
carriage return discarded the accumulated `row` so the second line is
`row2`, not `rowrow2`; the next emission tick then emits exactly the
two-line snapshot. -/
theorem hud_cr_overwrite_and_frame_clear (prior : List String) (d : Bool) :
    (consumeStr
        { lines := prior, maxLines := 800, current := [], dirty := d }
        "CH 1 ...\nrow\rrow2\n").lines = ["CH 1 ...", "row2"] ∧
    (consumeStr
        { lines := prior, maxLines := 800, current := [], dirty := d }
        "CH 1 ...\nrow\rrow2\n").current = [] ∧
    (flushEmit (consumeStr
        { lines := prior, maxLines := 800, current := [], dirty := d }
        "CH 1 ...\nrow\rrow2\n")).1 = some "CH 1 ...\nrow2" :=
  ⟨rfl, rfl, rfl⟩

end HudStream
